import Mathlib

/-!
Verification of the plotting core of MDBenchmark (`mdbenchmark/plot.py`).

The dataframe of benchmark measurements is embedded as a list of records;
pandas boolean-mask filtering becomes `List.filter`, `np.unique` becomes
dedup-then-sort, `groupby` becomes partitioning by a key function that keeps
the input row order inside each group, and `np.arange` becomes an explicit
list construction.  Terminal `console.error` calls (which exit the program)
are embedded as `Except.error` with a `SelectionError` payload.
-/

/-- One row of the benchmark dataframe: columns `host`, `module`, `gpu`,
`nodes`, `ncores`, `ns/day` (the last one called `perf` here). -/
structure BenchmarkRecord where
  host : String
  module : String
  gpu : Bool
  nodes : Nat
  ncores : Nat
  perf : ℚ
deriving Repr, DecidableEq

/-- Modelled from the spec: `console.error` (from `mdbenchmark.console`, not
part of the sources here) prints a message and terminates with a non-zero
exit code; the spec calls these terminal failures `SelectionError`.  Each
constructor corresponds to one `console.error` call site in
`filter_dataframe_for_plotting`. -/
inductive SelectionError where
  /-- "CPU and GPU not set. Nothing to plot. Exiting." -/
  | nothingToPlot
  /-- "Your filtering led to an empty dataset. Exiting." -/
  | emptyDataset
  /-- "Could not find all provided hosts. Available hosts are: ..." -/
  | missingHosts (available : List String)
  /-- "The module '...' does not exist in your data. Exiting." -/
  | missingModule (m : String)
  /-- "Your selections contained no benchmarking information. ..." -/
  | emptySelection
deriving Repr, DecidableEq

/-- `pat` occurs as a contiguous sublist of the second argument.  Used to
embed pandas `Series.str.contains` (substring containment, no regex
metacharacters appear in the inputs of interest). -/
def infixOfB (pat : List Char) : List Char → Bool
  | [] => pat.isEmpty
  | c :: rest => pat.isPrefixOf (c :: rest) || infixOfB pat rest

/-- `df["module"].str.contains(pat)` for a single pattern: substring test. -/
def strContains (s pat : String) : Bool :=
  infixOfB pat.toList s.toList

/-- `np.unique` on a column: the distinct values, sorted. -/
def npUnique (l : List String) : List String :=
  List.insertionSort (· ≤ ·) l.dedup

/-- `get_xsteps(size, min_x, plot_cores, xtick_step)` from plot.py:
step size for the xtick spacing.  `xtick_step` is the optional user
override; Python's `if xtick_step:` treats both `None` and `0` as absent. -/
def get_xsteps (size : Nat) (min_x : Nat) (plot_cores : Bool) (xtick_step : Option Int) : Int :=
  let step : Int := 1
  let step := if 18 ≤ size then 2 else step
  let step := if plot_cores && (decide (10 < size) || decide (100 ≤ min_x)) then 3 else step
  match xtick_step with
  | some v => if v ≠ 0 then v else step
  | none => step

/-- C6: with no user override, `get_xsteps` returns 3 when plotting cores and
(size > 10 or min_x ≥ 100); otherwise 2 when size ≥ 18; otherwise 1 — the
per-core rule overrides the size-≥-18 rule.  In particular
(5, 4, per-node) ↦ 1, (20, 1, per-node) ↦ 2, (15, 128, per-core) ↦ 3. -/
theorem C6_xstep_heuristics (size min_x : Nat) (pc : Bool) :
    get_xsteps size min_x pc none =
      (if pc = true ∧ (10 < size ∨ 100 ≤ min_x) then 3
       else if 18 ≤ size then 2 else 1) ∧
    get_xsteps 5 4 false none = 1 ∧
    get_xsteps 20 1 false none = 2 ∧
    get_xsteps 15 128 true none = 3 := by
  refine ⟨?_, by decide, by decide, by decide⟩
  unfold get_xsteps
  cases pc <;> simp

/-- C4 counterexample: a user-supplied `xtick_step = 0` is an integer value,
but the function does not return it — Python's truthiness test skips the
override and the heuristic result 2 is returned instead. -/
theorem C4_counterexample :
    get_xsteps 18 1 false (some 0) = 2 ∧ get_xsteps 18 1 false (some 0) ≠ 0 := by
  decide

/-- C4 (amended): a user-supplied step overrides all heuristics whenever it
is nonzero; a supplied step of 0 is treated like an absent one. -/
theorem C4_user_step_override (size min_x : Nat) (pc : Bool) (v : Int) (hv : v ≠ 0) :
    get_xsteps size min_x pc (some v) = v := by
  unfold get_xsteps
  simp [hv]

theorem C4_user_step_override_witness :
    (5 : Int) ≠ 0 ∧ get_xsteps 20 1 false (some 5) = 5 :=
  ⟨by decide, C4_user_step_override 20 1 false 5 (by decide)⟩

/-- The gpu/cpu branch of `filter_dataframe_for_plotting` (plot.py lines
117–127): with both flags, keep everything; with only one, keep the matching
rows; with neither, `console.error` exits. -/
def processorFilterStage (df : List BenchmarkRecord) (gpu cpu : Bool) :
    Except SelectionError (List BenchmarkRecord) :=
  if gpu && cpu then .ok df
  else if gpu && !cpu then .ok (df.filter (fun r => r.gpu))
  else if cpu && !gpu then .ok (df.filter (fun r => !r.gpu))
  else .error .nothingToPlot

/-- `df[df["host"].isin(host_name)]` (plot.py line 132). -/
def df_filtered_hosts (df : List BenchmarkRecord) (host_name : List String) :
    List BenchmarkRecord :=
  df.filter (fun r => host_name.contains r.host)

/-- The host branch of `filter_dataframe_for_plotting` (plot.py lines
132–150): restrict to the requested hosts, error when the number of distinct
matched hosts differs from the number of requested hosts, and keep the whole
frame when no host was requested. -/
def hostFilterStage (df : List BenchmarkRecord) (host_name : List String) :
    Except SelectionError (List BenchmarkRecord) :=
  if (npUnique ((df_filtered_hosts df host_name).map (fun r => r.host))).length
      ≠ host_name.length then
    .error (.missingHosts (npUnique (df.map (fun r => r.host))))
  else if host_name.isEmpty then .ok df
  else .ok (df_filtered_hosts df host_name)

/-- The per-module existence loop of `filter_dataframe_for_plotting` (plot.py
lines 152–160): the family names "gromacs" and "namd" only emit a note, a
module occurring verbatim in the data is fine, anything else exits. -/
def checkModules (df : List BenchmarkRecord) : List String → Except SelectionError Unit
  | [] => .ok ()
  | m :: rest =>
    if m = "gromacs" ∨ m = "namd" then checkModules df rest
    else if (df.map (fun r => r.module)).contains m then checkModules df rest
    else .error (.missingModule m)

/-- The module branch of `filter_dataframe_for_plotting` (plot.py lines
152–167): after the existence loop, a non-empty request keeps the rows whose
module contains any requested name as a substring
(`df["module"].str.contains("|".join(module_name))`). -/
def moduleFilterStage (df : List BenchmarkRecord) (module_name : List String) :
    Except SelectionError (List BenchmarkRecord) :=
  match checkModules df module_name with
  | .error e => .error e
  | .ok _ =>
    if module_name.isEmpty then .ok df
    else .ok (df.filter (fun r => module_name.any (fun m => strContains r.module m)))

/-- `filter_dataframe_for_plotting(df, host_name, module_name, gpu, cpu)`
from plot.py: the stages above in source order, with the two emptiness
checks (lines 129–130 and 169–173). -/
def filterDataframeForPlotting (df : List BenchmarkRecord)
    (host_name module_name : List String) (gpu cpu : Bool) :
    Except SelectionError (List BenchmarkRecord) :=
  match processorFilterStage df gpu cpu with
  | .error e => .error e
  | .ok df1 =>
    if df1.isEmpty then .error .emptyDataset
    else
      match hostFilterStage df1 host_name with
      | .error e => .error e
      | .ok df2 =>
        match moduleFilterStage df2 module_name with
        | .error e => .error e
        | .ok df3 =>
          if df3.isEmpty then .error .emptySelection
          else .ok df3

/-- The groupby key of `plot_over_group` (plot.py line 94): (gpu, module, host). -/
def groupKey (r : BenchmarkRecord) : Bool × String × String :=
  (r.gpu, r.module, r.host)

/-- The rows of one group, in dataframe order: pandas `groupby` keeps the
original row order inside each group. -/
def groupRows (df : List BenchmarkRecord) (k : Bool × String × String) :
    List BenchmarkRecord :=
  df.filter (fun r => decide (groupKey r = k))

/-- The series drawn by `plot_over_group`: one list of rows per distinct
(gpu, module, host) key. -/
def plotOverGroupSeries (df : List BenchmarkRecord) : List (List BenchmarkRecord) :=
  ((df.map groupKey).dedup).map (groupRows df)

/-- The x-column of a series: `ncores` when plotting per core, else `nodes`. -/
def seriesXs (plot_cores : Bool) (s : List BenchmarkRecord) : List Nat :=
  s.map (fun r => if plot_cores then r.ncores else r.nodes)

/-- The front of the `plot` pipeline: `filter_dataframe_for_plotting`
followed by the grouping of `plot_over_group` (plot.py lines 290–296). -/
def filterThenGroup (df : List BenchmarkRecord) (host_name module_name : List String)
    (gpu cpu : Bool) : Except SelectionError (List (List BenchmarkRecord)) :=
  match filterDataframeForPlotting df host_name module_name gpu cpu with
  | .error e => .error e
  | .ok d => .ok (plotOverGroupSeries d)

/-- C5: with both processor flags off the filter exits with the
"nothing to plot" error on every input, so the pipeline never reaches the
grouping stage. -/
theorem C5_neither_cpu_nor_gpu (df : List BenchmarkRecord)
    (host_name module_name : List String) :
    filterDataframeForPlotting df host_name module_name false false =
      .error .nothingToPlot ∧
    filterThenGroup df host_name module_name false false =
      .error .nothingToPlot := by
  exact ⟨rfl, rfl⟩

/-- A duplicate-free list drawn from `l₂` is no longer than `l₂`. -/
theorem nodup_length_le {α : Type} [DecidableEq α] (l₁ l₂ : List α)
    (h1 : l₁.Nodup) (hs : ∀ a ∈ l₁, a ∈ l₂) : l₁.length ≤ l₂.length := by
  induction l₁ generalizing l₂ with
  | nil => simp
  | cons a t ih =>
    have ha : a ∈ l₂ := hs a (by simp)
    have h1' := List.nodup_cons.mp h1
    have ht : ∀ x ∈ t, x ∈ l₂.erase a := by
      intro x hx
      have hxa : x ≠ a := fun he => h1'.1 (he ▸ hx)
      exact (List.mem_erase_of_ne hxa).mpr (hs x (List.mem_cons_of_mem _ hx))
    have hlen : (l₂.erase a).length = l₂.length - 1 := List.length_erase_of_mem ha
    have hpos : 0 < l₂.length := List.length_pos.mpr (List.ne_nil_of_mem ha)
    have := ih (l₂.erase a) h1'.2 ht
    simp only [List.length_cons]
    omega

theorem npUnique_length (l : List String) : (npUnique l).length = l.dedup.length :=
  List.length_insertionSort _ _

/-- The distinct hosts matched by a request are at most as numerous as the
request. -/
theorem matched_dedup_le (df : List BenchmarkRecord) (host_name : List String) :
    (((df_filtered_hosts df host_name).map (fun r => r.host)).dedup).length
      ≤ host_name.length := by
  apply nodup_length_le _ _ (List.nodup_dedup _)
  intro a ha
  obtain ⟨r, hr, hra⟩ := List.mem_map.mp (List.mem_dedup.mp ha)
  have hc := (List.mem_filter.mp hr).2
  subst hra
  simpa using hc

theorem hostFilterStage_nil (df : List BenchmarkRecord) :
    hostFilterStage df [] = .ok df := by
  simp [hostFilterStage, df_filtered_hosts, npUnique]

/-- C7: host filtering is the identity for an empty request; for a non-empty
duplicate-free request it errors with the data's distinct host list when the
distinct matched hosts are fewer than the requested ones, and otherwise
keeps exactly the rows whose host is requested. -/
theorem C7_host_filtering (df : List BenchmarkRecord) (host_name : List String)
    (hnd : host_name.Nodup) :
    (host_name = [] → hostFilterStage df host_name = .ok df) ∧
    (host_name ≠ [] →
      ((((df_filtered_hosts df host_name).map (fun r => r.host)).dedup).length
          < host_name.length →
        hostFilterStage df host_name =
          .error (.missingHosts (npUnique (df.map (fun r => r.host))))) ∧
      (host_name.length ≤
          (((df_filtered_hosts df host_name).map (fun r => r.host)).dedup).length →
        hostFilterStage df host_name = .ok (df_filtered_hosts df host_name))) := by
  have hlen := npUnique_length ((df_filtered_hosts df host_name).map (fun r => r.host))
  refine ⟨?_, ?_⟩
  · rintro rfl
    exact hostFilterStage_nil df
  · intro hne
    refine ⟨?_, ?_⟩
    · intro hlt
      unfold hostFilterStage
      rw [if_pos]
      omega
    · intro hge
      have heq : (((df_filtered_hosts df host_name).map (fun r => r.host)).dedup).length
          = host_name.length :=
        le_antisymm (matched_dedup_le df host_name) hge
      unfold hostFilterStage
      rw [if_neg, if_neg]
      · simp [hne]
      · omega

/-- Row with host "node01", used as concrete data below. -/
def rec1 : BenchmarkRecord :=
  ⟨"node01", "gromacs/2018.2", false, 1, 40, 5⟩

theorem C7_host_filtering_witness :
    hostFilterStage [rec1] ["ghost"] = .error (.missingHosts ["node01"]) := by
  have h := ((C7_host_filtering [rec1] ["ghost"] (by decide)).2 (by decide)).1 (by decide)
  rw [h]
  rfl

/-- Row with a namd module, used as concrete data below. -/
def rec2 : BenchmarkRecord :=
  ⟨"node01", "namd/2.12", false, 1, 40, 5⟩

deriving instance DecidableEq for Except

/-- C9: with empty host and module requests and both processor flags set,
the filter returns every non-empty dataset unchanged. -/
theorem C9_identity_filter (df : List BenchmarkRecord) (h : df ≠ []) :
    filterDataframeForPlotting df [] [] true true = .ok df := by
  have hne : df.isEmpty = false := by simp [h]
  have h2 := hostFilterStage_nil df
  simp [filterDataframeForPlotting, processorFilterStage, moduleFilterStage, checkModules,
    hne, h2]

theorem C9_identity_filter_witness :
    filterDataframeForPlotting [rec1] [] [] true true = .ok [rec1] :=
  C9_identity_filter [rec1] (by decide)

/-- C1 counterexample: on a dataset with one gromacs row and one namd row,
requesting the single recognized family name "gromacs" does restrict the
data — the namd row is dropped — so the result differs from the one for an
empty module request. -/
theorem C1_counterexample :
    filterDataframeForPlotting [rec1, rec2] [] ["gromacs"] true true = .ok [rec1] ∧
    filterDataframeForPlotting [rec1, rec2] [] [] true true = .ok [rec1, rec2] ∧
    filterDataframeForPlotting [rec1, rec2] [] ["gromacs"] true true ≠
      filterDataframeForPlotting [rec1, rec2] [] [] true true := by
  refine ⟨by decide, by decide, by decide⟩

/-- The per-module existence loop accepts any list made of the two
recognized family names. -/
theorem checkModules_family (df : List BenchmarkRecord) (module_name : List String)
    (hfam : ∀ m ∈ module_name, m = "gromacs" ∨ m = "namd") :
    checkModules df module_name = .ok () := by
  induction module_name with
  | nil => rfl
  | cons m rest ih =>
    have hm := hfam m (by simp)
    simp only [checkModules]
    rw [if_pos hm]
    exact ih fun x hx => hfam x (List.mem_cons_of_mem _ hx)

/-- C1 (amended): requesting only recognized family names never raises the
missing-module error, but the substring filter is still applied — relative
to the empty-module-request result, the rows are further restricted to
those whose module contains one of the requested names, with the usual
empty-result error. -/
theorem C1_family_modules (df : List BenchmarkRecord) (hosts module_name : List String)
    (gpu cpu : Bool) (d : List BenchmarkRecord)
    (hfam : ∀ m ∈ module_name, m = "gromacs" ∨ m = "namd") (hne : module_name ≠ [])
    (hok : filterDataframeForPlotting df hosts [] gpu cpu = .ok d) :
    filterDataframeForPlotting df hosts module_name gpu cpu =
      (if (d.filter (fun r => module_name.any (fun m => strContains r.module m))).isEmpty
       then .error .emptySelection
       else .ok (d.filter (fun r => module_name.any (fun m => strContains r.module m)))) := by
  unfold filterDataframeForPlotting at hok ⊢
  cases hp : processorFilterStage df gpu cpu with
  | error e => rw [hp] at hok; exact absurd hok (by simp)
  | ok df1 =>
    rw [hp] at hok
    simp only at hok ⊢
    by_cases he : df1.isEmpty
    · rw [if_pos he] at hok; exact absurd hok (by simp)
    · rw [if_neg he] at hok ⊢
      cases hh : hostFilterStage df1 hosts with
      | error e => rw [hh] at hok; exact absurd hok (by simp)
      | ok df2 =>
        rw [hh] at hok
        simp only [moduleFilterStage, checkModules, List.isEmpty_nil, if_true] at hok
        simp only [moduleFilterStage, checkModules_family df2 module_name hfam]
        rw [if_neg (by simp [hne])]
        by_cases he2 : df2.isEmpty
        · rw [if_pos he2] at hok; exact absurd hok (by simp)
        · rw [if_neg he2] at hok
          have hd : df2 = d := by
            simpa using hok
          subst hd
          rfl

/-- Rows rec3/rec4 share one group key but appear with descending node
counts, exhibiting that `groupby` does not sort inside a group. -/
def rec3 : BenchmarkRecord :=
  ⟨"node01", "gromacs/2018.2", false, 2, 80, 9⟩

/-- See `rec3`. -/
def rec4 : BenchmarkRecord :=
  ⟨"node01", "gromacs/2018.2", false, 1, 40, 5⟩

/-- C2 counterexample: a dataframe whose two rows share the group key but
come with node counts 2 then 1 produces a single series whose x-column is
[2, 1] — not ascending.  pandas `groupby` keeps the original row order
inside each group; nothing sorts by the x-field. -/
theorem C2_counterexample :
    plotOverGroupSeries [rec3, rec4] = [[rec3, rec4]] ∧
    seriesXs false [rec3, rec4] = [2, 1] ∧
    ¬ List.Sorted (· ≤ ·) (seriesXs false [rec3, rec4]) := by
  refine ⟨by decide, by decide, by decide⟩

/-- C2 (amended): each series keeps the rows in dataframe order, so its
x-column is ascending whenever the filtered dataframe itself is ascending
in the chosen x-field (as the CSVs written by `mdbenchmark analyze` are). -/
theorem C2_group_preserves_order (df : List BenchmarkRecord) (pc : Bool)
    (hs : List.Sorted (· ≤ ·) (seriesXs pc df)) :
    ∀ s ∈ plotOverGroupSeries df, List.Sorted (· ≤ ·) (seriesXs pc s) := by
  intro s hmem
  obtain ⟨k, _, rfl⟩ := List.mem_map.mp hmem
  unfold seriesXs List.Sorted at hs
  unfold seriesXs groupRows List.Sorted
  exact List.pairwise_map.mpr
    (List.Pairwise.sublist (List.filter_sublist df) (List.pairwise_map.mp hs))

theorem C2_group_preserves_order_witness :
    List.Sorted (· ≤ ·)
      (seriesXs false (groupRows [rec4, rec3] (false, "gromacs/2018.2", "node01"))) :=
  C2_group_preserves_order [rec4, rec3] false (by decide)
    (groupRows [rec4, rec3] (false, "gromacs/2018.2", "node01")) (by decide)

theorem C1_family_modules_witness :
    filterDataframeForPlotting [rec1, rec2] [] ["gromacs"] true true =
      (if (([rec1, rec2].filter
              (fun r => ["gromacs"].any (fun m => strContains r.module m))).isEmpty)
       then .error .emptySelection
       else .ok ([rec1, rec2].filter
              (fun r => ["gromacs"].any (fun m => strContains r.module m)))) :=
  C1_family_modules [rec1, rec2] [] ["gromacs"] true true [rec1, rec2]
    (by decide) (by decide) (by decide)


/-- numpy `.astype(int)` on a scalar: truncation toward zero. -/
def astypeInt (q : ℚ) : Int :=
  Int.tdiv q.num q.den

/-- `yticks_steps = ((max_y + 1) / 10).astype(int)` (plot.py line 312). -/
def yticks_steps (max_y : ℚ) : Int :=
  astypeInt ((max_y + 1) / 10)

/-- Maximum of a column, as pandas computes it for a non-empty frame
(`[]` never arises there; 0 is returned for it). -/
def listMax : List ℚ → ℚ
  | [] => 0
  | x :: xs => xs.foldl max x

/-- `max_y = df["ns/day"].max() or 50` (plot.py line 311): Python replaces a
falsy maximum — the number 0 — by 50. -/
def maxYOf (df : List BenchmarkRecord) : ℚ :=
  if listMax (df.map (fun r => r.perf)) = 0 then 50
  else listMax (df.map (fun r => r.perf))

/-- `np.arange(start, stop, step)` over the rationals: numpy raises
`ZeroDivisionError` on a zero step (embedded as `none`); otherwise the
result has `max(0, ceil((stop − start) / step))` entries. -/
def npArange (start stop step : ℚ) : Option (List ℚ) :=
  if step = 0 then none
  else some ((List.range (((stop - start) / step).ceil.toNat)).map
    (fun i : Nat => start + (i : ℚ) * step))

/-- `yticks = np.arange(0, max_y + (max_y * 0.25), yticks_steps)`
(plot.py line 313). -/
def yticksOf (max_y : ℚ) : Option (List ℚ) :=
  npArange 0 (max_y + max_y * (1/4)) ((yticks_steps max_y : Int) : ℚ)

/-- Truncation toward zero agrees with the floor on non-negative rationals. -/
theorem astypeInt_eq_floor (q : ℚ) (hq : 0 ≤ q) : astypeInt q = ⌊q⌋ := by
  rw [Rat.floor_def, astypeInt]
  exact Int.tdiv_eq_ediv (Rat.num_nonneg.mpr hq) (Int.natCast_nonneg _)

/-- A positive rational has ceiling at least one (`Rat.ceil` form). -/
theorem ratCeil_pos (x : ℚ) (hx : 0 < x) : 1 ≤ x.ceil := by
  have hnum : 0 < x.num := Rat.num_pos.mpr hx
  unfold Rat.ceil
  split
  · omega
  · have h0 : 0 ≤ x.num / (x.den : Int) :=
      Int.ediv_nonneg (le_of_lt hnum) (Int.natCast_nonneg _)
    omega

/-- C3 counterexample: a dataset whose best performance is 5 ns/day gives
`max_y = 5 > 0`, yet the y-tick interval `((max_y + 1)/10).astype(int)` is
0 — not at least 1 — and `np.arange` with a zero step raises, so the tick
sequence is degenerate, contradicting the claim at this input. -/
theorem C3_counterexample :
    maxYOf [rec1] = 5 ∧ yticks_steps 5 = 0 ∧ ¬ 1 ≤ yticks_steps 5 ∧
    yticksOf 5 = none := by
  have hfl := astypeInt_eq_floor (((5 : ℚ) + 1) / 10) (by norm_num)
  have hz : yticks_steps 5 = 0 := by
    rw [yticks_steps, hfl]
    refine Int.floor_eq_zero_iff.mpr ⟨by norm_num, by norm_num⟩
  refine ⟨by decide, hz, by omega, ?_⟩
  rw [yticksOf, npArange, if_pos]
  rw [hz]
  norm_num

/-- C3 (amended): the y-tick interval is `floor((max_y + 1)/10)`, but it is
at least 1 only for `max_y ≥ 9` (where the tick sequence is a non-empty
finite list); for `0 < max_y < 9` the interval is 0 and the `np.arange`
call is degenerate (numpy raises on a zero step). -/
theorem C3_ytick_interval (max_y : ℚ) :
    (0 ≤ max_y → yticks_steps max_y = ⌊(max_y + 1) / 10⌋) ∧
    (9 ≤ max_y → 1 ≤ yticks_steps max_y ∧
      ∃ l, yticksOf max_y = some l ∧ l ≠ []) ∧
    (0 < max_y → max_y < 9 → yticks_steps max_y = 0 ∧ yticksOf max_y = none) := by
  refine ⟨fun hq => astypeInt_eq_floor _ (by positivity), ?_, ?_⟩
  · intro h9
    have h0 : (0:ℚ) ≤ max_y := by linarith
    have hfl := astypeInt_eq_floor ((max_y + 1) / 10) (by positivity)
    have h1 : 1 ≤ yticks_steps max_y := by
      rw [yticks_steps, hfl]
      refine Int.le_floor.mpr ?_
      rw [Int.cast_one, le_div_iff₀ (by norm_num : (0:ℚ) < 10)]
      linarith
    have hcast : (0:ℚ) < ((yticks_steps max_y : Int) : ℚ) := by
      exact_mod_cast lt_of_lt_of_le Int.zero_lt_one h1
    refine ⟨h1, ?_⟩
    rw [yticksOf, npArange, if_neg (ne_of_gt hcast)]
    refine ⟨_, rfl, ?_⟩
    have hstop : (0:ℚ) < max_y + max_y * (1/4) - 0 := by linarith
    have hceil := ratCeil_pos _ (div_pos hstop hcast)
    refine List.length_pos.mp ?_
    rw [List.length_map, List.length_range]
    omega
  · intro hpos h9
    have hfl := astypeInt_eq_floor ((max_y + 1) / 10) (by positivity)
    have hz : yticks_steps max_y = 0 := by
      rw [yticks_steps, hfl]
      refine Int.floor_eq_zero_iff.mpr ⟨by positivity, ?_⟩
      rw [div_lt_one (by norm_num : (0:ℚ) < 10)]
      linarith
    refine ⟨hz, ?_⟩
    rw [yticksOf, npArange, if_pos]
    rw [hz]
    norm_num

theorem C3_ytick_interval_witness :
    (9:ℚ) ≤ 19 ∧ 1 ≤ yticks_steps 19 :=
  ⟨by norm_num, ((C3_ytick_interval 19).2.1 (by norm_num)).1⟩

/-- The x-value of a row in the chosen selection: `ncores` per core,
`nodes` per node, as a rational coordinate. -/
def xOf (pc : Bool) (r : BenchmarkRecord) : ℚ :=
  if pc then (r.ncores : ℚ) else (r.nodes : ℚ)

/-- Modelled from the spec: `calc_slope_intercept` from `mdbenchmark.utils`
(that module is not among the sources here) — the standard two-point line
equation, slope = (y2 − y1)/(x2 − x1) and intercept = y1 − x1·slope. -/
def calc_slope_intercept (p1 p2 : ℚ × ℚ) : ℚ × ℚ :=
  ((p2.2 - p1.2) / (p2.1 - p1.1),
   p1.2 - p1.1 * ((p2.2 - p1.2) / (p2.1 - p1.1)))

/-- Modelled from the spec: `lin_func(x, slope, intercept)` from
`mdbenchmark.utils` — evaluation of the line, slope·x + intercept. -/
def lin_func (x slope intercept : ℚ) : ℚ :=
  slope * x + intercept

/-- The dashed projection line of `plot_projection` (plot.py lines 64–67):
slope and intercept from the first two rows of the series. -/
def plotProjectionLine (pc : Bool) (r0 r1 : BenchmarkRecord) : ℚ × ℚ :=
  calc_slope_intercept (xOf pc r0, r0.perf) (xOf pc r1, r1.perf)

/-- Two-point line interpolation is exact at both sample points. -/
theorem two_point_line_exact (x1 y1 x2 y2 : ℚ) (hx : x1 ≠ x2) :
    lin_func x1 (calc_slope_intercept (x1, y1) (x2, y2)).1
      (calc_slope_intercept (x1, y1) (x2, y2)).2 = y1 ∧
    lin_func x2 (calc_slope_intercept (x1, y1) (x2, y2)).1
      (calc_slope_intercept (x1, y1) (x2, y2)).2 = y2 := by
  have hd : x2 - x1 ≠ 0 := sub_ne_zero.mpr (Ne.symm hx)
  unfold lin_func calc_slope_intercept
  constructor
  · ring
  · field_simp
    ring

/-- C8: when a series' first two rows have distinct x-values, the projection
line of `plot_projection` passes exactly through both of them. -/
theorem C8_projection_exact (pc : Bool) (r0 r1 : BenchmarkRecord)
    (hx : xOf pc r0 ≠ xOf pc r1) :
    lin_func (xOf pc r0) (plotProjectionLine pc r0 r1).1
      (plotProjectionLine pc r0 r1).2 = r0.perf ∧
    lin_func (xOf pc r1) (plotProjectionLine pc r0 r1).1
      (plotProjectionLine pc r0 r1).2 = r1.perf :=
  two_point_line_exact (xOf pc r0) r0.perf (xOf pc r1) r1.perf hx

theorem C8_projection_exact_witness :
    xOf false rec4 ≠ xOf false rec3 ∧
    lin_func (xOf false rec4) (plotProjectionLine false rec4 rec3).1
      (plotProjectionLine false rec4 rec3).2 = rec4.perf ∧
    lin_func (xOf false rec3) (plotProjectionLine false rec4 rec3).1
      (plotProjectionLine false rec4 rec3).2 = rec3.perf := by
  have hx : xOf false rec4 ≠ xOf false rec3 := by
    norm_num [xOf, rec3, rec4]
  have h := C8_projection_exact false rec4 rec3 hx
  exact ⟨hx, h.1, h.2⟩

/-- Maximum of a column of naturals (`df[...].max()` on a non-empty frame). -/
def natMax (l : List Nat) : Nat :=
  l.foldr max 0

/-- Minimum of a column of naturals (`df[...].min()` on a non-empty frame). -/
def natMin : List Nat → Nat
  | [] => 0
  | x :: xs => xs.foldl min x

/-- `np.arange` on naturals with positive step: start, start+step, …, with
⌈(stop − start)/step⌉ entries. -/
def npArangeNat (start stop step : Nat) : List Nat :=
  (List.range ((stop - start + step - 1) / step)).map (fun i => start + i * step)

/-- `min_x = df[selection].min() if plot_cores else 1` (plot.py line 300). -/
def min_xOf (df : List BenchmarkRecord) (plot_cores : Bool) : Nat :=
  if plot_cores then natMin (df.map (fun r => r.ncores)) else 1

/-- `max_x = df[selection].max()` (plot.py line 301). -/
def max_xOf (df : List BenchmarkRecord) (plot_cores : Bool) : Nat :=
  natMax (df.map (fun r => if plot_cores then r.ncores else r.nodes))

/-- `xticks = np.arange(min_x, max_x + min_x, xticks_steps)` with
`xticks_steps = min_x` (plot.py lines 302–303). -/
def xticksOf (df : List BenchmarkRecord) (plot_cores : Bool) : List Nat :=
  npArangeNat (min_xOf df plot_cores) (max_xOf df plot_cores + min_xOf df plot_cores)
    (min_xOf df plot_cores)

/-- `step = get_xsteps(xticks.size, min_x, plot_cores, xtick_step)`
(plot.py line 304). -/
def xstepOf (df : List BenchmarkRecord) (plot_cores : Bool) (xtick_step : Option Int) : Int :=
  get_xsteps (xticksOf df plot_cores).length (min_xOf df plot_cores) plot_cores xtick_step

/-- `xdiff = min_x * 0.5 * step; ax.set_xlim(min_x - xdiff, max_x + xdiff)`
(plot.py lines 307–308). -/
def xlimOf (df : List BenchmarkRecord) (plot_cores : Bool) (xtick_step : Option Int) : ℚ × ℚ :=
  ((min_xOf df plot_cores : ℚ) -
     (min_xOf df plot_cores : ℚ) * (1/2) * (xstepOf df plot_cores xtick_step : ℚ),
   (max_xOf df plot_cores : ℚ) +
     (min_xOf df plot_cores : ℚ) * (1/2) * (xstepOf df plot_cores xtick_step : ℚ))

/-- C10: per node (`plot_cores = false`) the grid base `min_x` is the
constant 1 whatever the data's smallest node count, the candidate ticks are
1, 2, …, max_nodes with spacing 1, and the visible x-range is
[1 − step/2, max_nodes + step/2]. -/
theorem C10_per_node_grid (df : List BenchmarkRecord) (xtick_step : Option Int) :
    min_xOf df false = 1 ∧
    xticksOf df false =
      (List.range (natMax (df.map (fun r => r.nodes)))).map (fun i => 1 + i) ∧
    xlimOf df false xtick_step =
      (1 - (xstepOf df false xtick_step : ℚ) / 2,
       (natMax (df.map (fun r => r.nodes)) : ℚ) +
         (xstepOf df false xtick_step : ℚ) / 2) := by
  refine ⟨rfl, ?_, ?_⟩
  · unfold xticksOf npArangeNat min_xOf max_xOf
    simp
  · unfold xlimOf min_xOf max_xOf
    simp only [Bool.false_eq_true, if_false, Nat.cast_one, Prod.mk.injEq]
    constructor <;> ring
